import Mathlib

/-!
Shallow embedding of the Monte Carlo policy-cost simulator
(`src/parameters.py`, `src/config.py`, `src/simulation.py`).

Modelling conventions:
* Monetary values and float arithmetic are modelled over `ℚ`.  Where numpy
  would produce a non-finite float (NaN from `0/0`, `±inf` from `x/0` with
  `x ≠ 0`), the embedding returns `Option ℚ` with `none` standing for the
  non-finite result.
* numpy's global Mersenne-Twister generator is modelled by `RNG`: `gauss`
  is the stream of standard-normal draws determined by the last seed, and
  `pos` counts how many draws have been consumed.  The seed-to-stream map
  (the Mersenne Twister itself) and the irrational float operations
  (`sqrt`, Student-t quantiles) are external library code, supplied as an
  `Oracles` record: every theorem below holds for all instantiations.
-/

namespace PolicyMC

/-- `PolicyParameter` from `src/parameters.py` (a dataclass with a name,
mean, standard deviation and two informational strings). -/
structure PolicyParameter where
  name : String
  mean : ℚ
  std_dev : ℚ
  description : String
  source : String
deriving Repr, DecidableEq, Inhabited

/-- numpy's global random generator: the standard-normal stream `gauss`
determined by the seed last applied, and the number `pos` of draws already
consumed from it. -/
structure RNG where
  gauss : ℕ → ℚ
  pos : ℕ

/-- External code the embedding is parametric in: the Mersenne Twister
(seed ↦ standard-normal stream), float square root, and the two-sided
Student-t quantile used by `scipy.stats.t.interval` for a given number of
degrees of freedom ≥ 1. -/
structure Oracles where
  mt : ℕ → ℕ → ℚ
  sqrtQ : ℚ → ℚ
  tq : ℕ → ℚ

/-- `np.random.seed(s)`: resets the global generator to the stream
determined by `s`, discarding the previous state. -/
def npSeed (mt : ℕ → ℕ → ℚ) (s : ℕ) : RNG :=
  ⟨mt s, 0⟩

/-- `np.random.normal(mean, std, size)`: consumes `size` standard-normal
draws from the global stream and returns `mean + std * z` for each. -/
def npNormal (r : RNG) (mean std : ℚ) (size : ℕ) : List ℚ × RNG :=
  ((List.range size).map (fun i => mean + std * r.gauss (r.pos + i)),
   ⟨r.gauss, r.pos + size⟩)

/-- `PolicyParameter.sample` (`src/parameters.py:28-44`): optionally
re-seeds the global generator, draws `size` normal values with the
parameter's mean and std-dev, and clamps each draw at zero
(`np.maximum(samples, 0)`). -/
def PolicyParameter.sample (mt : ℕ → ℕ → ℚ) (p : PolicyParameter)
    (size : ℕ) (seed : Option ℕ) (r : RNG) : List ℚ × RNG :=
  let r0 := match seed with
    | some s => npSeed mt s
    | none => r
  let drawn := npNormal r0 p.mean p.std_dev size
  (drawn.1.map (fun x => max x 0), drawn.2)

/-! Configuration constants from `src/config.py`. -/

def DEFAULT_NUM_SIMULATIONS : ℕ := 10000

def DEFAULT_RANDOM_SEED : ℕ := 42

def DEFAULT_BUDGET_THRESHOLD : ℚ := 2

def CONFIDENCE_LEVEL : ℚ := 95 / 100

def PERCENTILES : List ℚ := [5, 25, 50, 75, 95]

/-! The configured parameter tables from `src/parameters.py` (dict
insertion order preserved). -/

/-- `POLICY_PARAMETERS` from `src/parameters.py:48-80`. -/
def POLICY_PARAMETERS : List (String × PolicyParameter) :=
  [("free_buses",
    ⟨"Free Public Transportation", 7/10, 1/10,
     "Free bus service for all NYC residents", "Public estimates"⟩),
   ("universal_childcare",
    ⟨"Universal Free Childcare", 6, 1,
     "Free childcare with increased wages for workers",
     "High-end estimates with wage increases"⟩),
   ("affordable_housing",
    ⟨"Affordable Housing Program", 10, 3/2,
     "$100B over 10 years, union labor, 200K units",
     "Mamdani campaign proposal"⟩),
   ("government_grocery_stores",
    ⟨"Government-Subsidized Grocery Stores", 3/40, 1/40,
     "5 government-run grocery stores (1 per borough)",
     "Estimated from similar programs"⟩)]

/-- The `tax_increases` revenue parameter from `src/parameters.py:85-91`,
the one `run_simulation` samples for revenues. -/
def TAX_INCREASES : PolicyParameter :=
  ⟨"Tax Revenue Increases", 10, 3/2,
   "2% tax on >$1M income + corporate tax increase to 11.5%",
   "Mamdani campaign proposal"⟩

/-- `REVENUE_PARAMETERS` from `src/parameters.py:84-92`. -/
def REVENUE_PARAMETERS : List (String × PolicyParameter) :=
  [("tax_increases", TAX_INCREASES)]

/-- Error message of `validate_parameters` for a negative mean
(`src/parameters.py:144`). -/
def meanErrMsg (key : String) (m : ℚ) : String :=
  "Parameter " ++ key ++ " has negative mean: " ++ toString m

/-- Error message of `validate_parameters` for a negative std-dev
(`src/parameters.py:147`). -/
def stdErrMsg (key : String) (s : ℚ) : String :=
  "Parameter " ++ key ++ " has negative std_dev: " ++ toString s

/-- `validate_parameters` (`src/parameters.py:132-152`): walks the merged
parameter dict in order; raises `ValueError` on the first negative mean or
negative std-dev; prints a warning (collected here as the returned list of
keys) when `std_dev > mean`; returns `True` (here: `.ok` with the warned
keys) otherwise. -/
def validate_parameters : List (String × PolicyParameter) → Except String (List String)
  | [] => .ok []
  | (k, p) :: rest =>
    if p.mean < 0 then .error (meanErrMsg k p.mean)
    else if p.std_dev < 0 then .error (stdErrMsg k p.std_dev)
    else if p.std_dev > p.mean then (validate_parameters rest).map (k :: ·)
    else validate_parameters rest

/-! Statistics primitives (`numpy` / `pandas` / `scipy` operations used by
`src/simulation.py`). -/

/-- `np.mean`. (numpy yields NaN on an empty array; every use below has at
least one element.) -/
def meanQ (xs : List ℚ) : ℚ :=
  xs.sum / xs.length

/-- `np.var` (population variance, `ddof = 0`). -/
def varQ (xs : List ℚ) : ℚ :=
  ((xs.map (fun x => (x - meanQ xs) ^ 2)).sum) / xs.length

/-- Sample variance with `ddof = 1` (the `pandas` `Series.std` and
`scipy.stats.sem` convention).  With fewer than two data points numpy's
`0/0` division yields NaN, modelled as `none`. -/
def var1 (xs : List ℚ) : Option ℚ :=
  if xs.length ≤ 1 then none
  else some (((xs.map (fun x => (x - meanQ xs) ^ 2)).sum) / (xs.length - 1))

/-- `np.min` (numpy errors on an empty array; never reached below). -/
def minQ : List ℚ → ℚ
  | [] => 0
  | x :: rest => rest.foldl min x

/-- `np.max`. -/
def maxQ : List ℚ → ℚ
  | [] => 0
  | x :: rest => rest.foldl max x

/-- Element `i` of a sorted array with the index clamped into range, as
used by numpy's linear-interpolation percentile (the upper index is only
out of range when its interpolation weight is zero). -/
def nthClamped (s : List ℚ) (i : ℕ) : ℚ :=
  s.getD (min i (s.length - 1)) 0

/-- Linear interpolation at fractional position `p` into the sorted array
`s`: `s[⌊p⌋] + (p - ⌊p⌋) * (s[⌊p⌋+1] - s[⌊p⌋])`. -/
def interp (s : List ℚ) (p : ℚ) : ℚ :=
  nthClamped s ⌊p⌋₊ +
    (p - (⌊p⌋₊ : ℚ)) * (nthClamped s (⌊p⌋₊ + 1) - nthClamped s ⌊p⌋₊)

/-- `np.percentile(xs, q)` with the default linear-interpolation method:
sort the data and interpolate at position `q/100 * (n-1)`. -/
def percentile (xs : List ℚ) (q : ℚ) : ℚ :=
  interp (xs.insertionSort (· ≤ ·)) (q * ((xs.length : ℚ) - 1) / 100)

/-- `scipy.stats.sem`: sample standard error `std(ddof=1) / sqrt(n)`;
NaN (`none`) when `n ≤ 1`. -/
def sem (o : Oracles) (xs : List ℚ) : Option ℚ :=
  (var1 xs).map (fun v => o.sqrtQ v / o.sqrtQ xs.length)

/-- `scipy.stats.t.interval(CONFIDENCE_LEVEL, df, loc, scale)`: the
two-sided Student-t interval `loc ± t_df * scale`.  A NaN scale or zero
degrees of freedom produce the NaN pair, modelled as `none`. -/
def tInterval (o : Oracles) (df : ℕ) (loc : ℚ) (scale : Option ℚ) :
    Option (ℚ × ℚ) :=
  match scale with
  | none => none
  | some s => if df = 0 then none
              else some (loc - o.tq df * s, loc + o.tq df * s)

/-- The `ci` helper of `MonteCarloSimulator._calculate_confidence_intervals`
(`src/simulation.py:210-214`). -/
def ci (o : Oracles) (xs : List ℚ) : Option (ℚ × ℚ) :=
  tInterval o (xs.length - 1) (meanQ xs) (sem o xs)

/-- Per-distribution summary block of `_calculate_statistics`
(mean / median / std / min / max).  `np.median` equals the linear
50th percentile. -/
structure DistStats where
  mean : ℚ
  median : ℚ
  std : ℚ
  min : ℚ
  max : ℚ
deriving Repr, DecidableEq

/-- The `confidence_intervals` block of the statistics dict. -/
structure ConfidenceIntervals where
  total_costs : Option (ℚ × ℚ)
  revenues : Option (ℚ × ℚ)
  net_budget_impact : Option (ℚ × ℚ)
deriving Repr, DecidableEq

/-- Per-policy entry of `policy_statistics`: key, mean, std
(`pandas` sample std, NaN for a single row) and median. -/
structure PolicyStats where
  key : String
  mean : ℚ
  std : Option ℚ
  median : ℚ
deriving Repr, DecidableEq

/-- The statistics dictionary built by
`MonteCarloSimulator._calculate_statistics` (`src/simulation.py:118-194`). -/
structure Stats where
  num_simulations : ℕ
  budget_threshold : ℚ
  total_costs : DistStats
  total_costs_percentiles : List (ℚ × ℚ)
  revenues : DistStats
  net_budget_impact : DistStats
  net_budget_impact_percentiles : List (ℚ × ℚ)
  threshold_exceedances : ℕ
  exceedance_probability : ℚ
  exceedance_percentage : ℚ
  confidence_intervals : ConfidenceIntervals
  policy_statistics : List PolicyStats
deriving Repr, DecidableEq

/-- The `mean/median/std/min/max` block for one data vector. -/
def distStats (o : Oracles) (xs : List ℚ) : DistStats :=
  ⟨meanQ xs, percentile xs 50, o.sqrtQ (varQ xs), minQ xs, maxQ xs⟩

/-- `MonteCarloSimulator._calculate_statistics`
(`src/simulation.py:118-194`). -/
def calculateStatistics (o : Oracles) (numSims : ℕ) (threshold : ℚ)
    (policy_costs : List (String × List ℚ))
    (total_costs revenues net_budget_impact : List ℚ)
    (threshold_exceedances : ℕ) : Stats :=
  { num_simulations := numSims
    budget_threshold := threshold
    total_costs := distStats o total_costs
    total_costs_percentiles :=
      PERCENTILES.map (fun p => (p, percentile total_costs p))
    revenues := distStats o revenues
    net_budget_impact := distStats o net_budget_impact
    net_budget_impact_percentiles :=
      PERCENTILES.map (fun p => (p, percentile net_budget_impact p))
    threshold_exceedances := threshold_exceedances
    exceedance_probability := (threshold_exceedances : ℚ) / numSims
    exceedance_percentage := 100 * (threshold_exceedances : ℚ) / numSims
    confidence_intervals :=
      ⟨ci o total_costs, ci o revenues, ci o net_budget_impact⟩
    policy_statistics :=
      policy_costs.map (fun c =>
        ⟨c.1, meanQ c.2, (var1 c.2).map o.sqrtQ, percentile c.2 50⟩) }

/-- `SimulationResults` (`src/simulation.py:20-38`): the per-policy cost
table keeps the configured column order of the `pandas` DataFrame. -/
structure SimulationResults where
  policy_costs : List (String × List ℚ)
  total_costs : List ℚ
  revenues : List ℚ
  net_budget_impact : List ℚ
  threshold_exceedances : ℕ
  statistics : Stats
deriving Repr, DecidableEq

/-- The sampling loop of `run_simulation` (`src/simulation.py:80-82`):
draw `n` samples for each policy in configured order from the shared
global generator. -/
def samplePolicies (o : Oracles) :
    List (String × PolicyParameter) → ℕ → RNG →
    List (String × List ℚ) × RNG
  | [], _, r => ([], r)
  | (k, p) :: rest, n, r =>
    let drawn := PolicyParameter.sample o.mt p n none r
    let tail := samplePolicies o rest n drawn.2
    ((k, drawn.1) :: tail.1, tail.2)

/-- `MonteCarloSimulator.run_simulation` (`src/simulation.py:67-116`):
sample each policy, sample the revenue parameter, form the row sums,
net impact, threshold exceedance count and the statistics dict. -/
def runSimulation (o : Oracles) (policyParams : List (String × PolicyParameter))
    (revenueParam : PolicyParameter) (numSims : ℕ) (threshold : ℚ)
    (r : RNG) : SimulationResults × RNG :=
  let sp := samplePolicies o policyParams numSims r
  let rv := PolicyParameter.sample o.mt revenueParam numSims none sp.2
  let total_costs :=
    (List.range numSims).map (fun t => (sp.1.map (fun c => c.2.getD t 0)).sum)
  let net_budget_impact := List.zipWith (fun a b => a - b) total_costs rv.1
  let threshold_exceedances := total_costs.countP (fun x => decide (threshold < x))
  (⟨sp.1, total_costs, rv.1, net_budget_impact, threshold_exceedances,
    calculateStatistics o numSims threshold sp.1 total_costs rv.1
      net_budget_impact threshold_exceedances⟩,
   rv.2)

/-- The configuration stored by `MonteCarloSimulator.__init__`
(`src/simulation.py:46-65`). -/
structure MonteCarloSimulator where
  num_simulations : ℕ
  budget_threshold : ℚ
  random_seed : Option ℕ
deriving Repr, DecidableEq

/-- `MonteCarloSimulator.__init__`: stores the configuration and, when a
seed is supplied, seeds the global generator (its only seeding site). -/
def initSimulator (o : Oracles) (numSims : ℕ) (threshold : ℚ)
    (seed : Option ℕ) (r : RNG) : MonteCarloSimulator × RNG :=
  (⟨numSims, threshold, seed⟩,
   match seed with
   | some s => npSeed o.mt s
   | none => r)

/-- Construct a simulator and immediately call `run_simulation`, threading
the global generator state. -/
def constructAndRun (o : Oracles) (policyParams : List (String × PolicyParameter))
    (revenueParam : PolicyParameter) (numSims : ℕ) (threshold : ℚ)
    (seed : Option ℕ) (r : RNG) : SimulationResults × RNG :=
  let ini := initSimulator o numSims threshold seed r
  runSimulation o policyParams revenueParam ini.1.num_simulations
    ini.1.budget_threshold ini.2

/-- Float division as numpy performs it in the sensitivity analysis:
`none` models a non-finite result (NaN from `0/0`, `±inf` from `x/0`). -/
def fdiv (a b : ℚ) : Option ℚ :=
  if b = 0 then none else some (a / b)

/-- One entry of the sensitivity dict
(`src/simulation.py:305-309`). -/
structure SensItem where
  key : String
  variance : ℚ
  contribution_to_total : Option ℚ
  percentage : Option ℚ
deriving Repr, DecidableEq

/-- Float `<` on possibly-NaN keys: any comparison involving NaN is
`False` in IEEE (and hence in Python's sort). -/
def fltLtOpt : Option ℚ → Option ℚ → Bool
  | some u, some v => decide (u < v)
  | _, _ => false

/-- `run_sensitivity_analysis` (`src/simulation.py:282-321`): per policy
column, variance and its ratio to the total-cost variance, then a stable
descending sort by contribution (Python's `sorted(..., reverse=True)`;
with NaN keys all comparisons are false and the order is preserved). -/
def run_sensitivity_analysis (res : SimulationResults) : List SensItem :=
  let base_variance := varQ res.total_costs
  let items := res.policy_costs.map (fun c =>
    let policy_variance := varQ c.2
    let contribution := fdiv policy_variance base_variance
    ⟨c.1, policy_variance, contribution, contribution.map (fun x => 100 * x)⟩)
  items.insertionSort
    (fun a b => fltLtOpt a.contribution_to_total b.contribution_to_total = false)

/-- Concrete instantiation of the external library oracles, used to
evaluate the embedding at concrete inputs. -/
def testOracles : Oracles :=
  ⟨fun s i => ((s + i : ℕ) : ℚ), fun q => q, fun _ => 2⟩

/-! ### Basic lemmas about sampling and the simulator -/

theorem sample_length (mt : ℕ → ℕ → ℚ) (p : PolicyParameter) (size : ℕ)
    (seed : Option ℕ) (r : RNG) :
    (PolicyParameter.sample mt p size seed r).1.length = size := by
  simp [PolicyParameter.sample, npNormal]

theorem sample_nonneg (mt : ℕ → ℕ → ℚ) (p : PolicyParameter) (size : ℕ)
    (seed : Option ℕ) (r : RNG) :
    ∀ x ∈ (PolicyParameter.sample mt p size seed r).1, 0 ≤ x := by
  intro x hx
  simp only [PolicyParameter.sample, npNormal, List.mem_map] at hx
  obtain ⟨y, -, rfl⟩ := hx
  exact le_max_right _ 0

theorem sample_rng_of_none (mt : ℕ → ℕ → ℚ) (p : PolicyParameter) (size : ℕ)
    (r : RNG) :
    (PolicyParameter.sample mt p size none r).2 = ⟨r.gauss, r.pos + size⟩ :=
  rfl

theorem samplePolicies_cols (o : Oracles) (ps : List (String × PolicyParameter))
    (n : ℕ) (r : RNG) :
    ∀ c ∈ (samplePolicies o ps n r).1, c.2.length = n ∧ ∀ x ∈ c.2, 0 ≤ x := by
  induction ps generalizing r with
  | nil => intro c hc; simp [samplePolicies] at hc
  | cons hd tl ih =>
    obtain ⟨k, p⟩ := hd
    intro c hc
    simp only [samplePolicies, List.mem_cons] at hc
    rcases hc with rfl | hc
    · exact ⟨sample_length o.mt p n none r, sample_nonneg o.mt p n none r⟩
    · exact ih _ c hc

theorem samplePolicies_rng (o : Oracles) (ps : List (String × PolicyParameter))
    (n : ℕ) (r : RNG) :
    (samplePolicies o ps n r).2 = ⟨r.gauss, r.pos + ps.length * n⟩ := by
  induction ps generalizing r with
  | nil => simp [samplePolicies]
  | cons hd tl ih =>
    obtain ⟨k, p⟩ := hd
    simp only [samplePolicies, ih, sample_rng_of_none, List.length_cons]
    congr 1
    ring

theorem runSimulation_policy_costs (o : Oracles)
    (ps : List (String × PolicyParameter)) (rev : PolicyParameter) (n : ℕ)
    (th : ℚ) (r : RNG) :
    (runSimulation o ps rev n th r).1.policy_costs = (samplePolicies o ps n r).1 :=
  rfl

theorem runSimulation_total_costs (o : Oracles)
    (ps : List (String × PolicyParameter)) (rev : PolicyParameter) (n : ℕ)
    (th : ℚ) (r : RNG) :
    (runSimulation o ps rev n th r).1.total_costs =
      (List.range n).map
        (fun t => ((samplePolicies o ps n r).1.map (fun c => c.2.getD t 0)).sum) :=
  rfl

theorem runSimulation_revenues (o : Oracles)
    (ps : List (String × PolicyParameter)) (rev : PolicyParameter) (n : ℕ)
    (th : ℚ) (r : RNG) :
    (runSimulation o ps rev n th r).1.revenues =
      (PolicyParameter.sample o.mt rev n none (samplePolicies o ps n r).2).1 :=
  rfl

theorem runSimulation_net (o : Oracles)
    (ps : List (String × PolicyParameter)) (rev : PolicyParameter) (n : ℕ)
    (th : ℚ) (r : RNG) :
    (runSimulation o ps rev n th r).1.net_budget_impact =
      List.zipWith (fun a b => a - b)
        (runSimulation o ps rev n th r).1.total_costs
        (runSimulation o ps rev n th r).1.revenues :=
  rfl

theorem runSimulation_exceedances (o : Oracles)
    (ps : List (String × PolicyParameter)) (rev : PolicyParameter) (n : ℕ)
    (th : ℚ) (r : RNG) :
    (runSimulation o ps rev n th r).1.threshold_exceedances =
      (runSimulation o ps rev n th r).1.total_costs.countP
        (fun x => decide (th < x)) :=
  rfl

theorem runSimulation_stats (o : Oracles)
    (ps : List (String × PolicyParameter)) (rev : PolicyParameter) (n : ℕ)
    (th : ℚ) (r : RNG) :
    (runSimulation o ps rev n th r).1.statistics =
      calculateStatistics o n th (runSimulation o ps rev n th r).1.policy_costs
        (runSimulation o ps rev n th r).1.total_costs
        (runSimulation o ps rev n th r).1.revenues
        (runSimulation o ps rev n th r).1.net_budget_impact
        (runSimulation o ps rev n th r).1.threshold_exceedances :=
  rfl

theorem runSimulation_rng (o : Oracles)
    (ps : List (String × PolicyParameter)) (rev : PolicyParameter) (n : ℕ)
    (th : ℚ) (r : RNG) :
    (runSimulation o ps rev n th r).2 = ⟨r.gauss, r.pos + (ps.length + 1) * n⟩ := by
  show (PolicyParameter.sample o.mt rev n none (samplePolicies o ps n r).2).2 = _
  rw [sample_rng_of_none, samplePolicies_rng]
  congr 1
  ring

theorem runSimulation_total_costs_length (o : Oracles)
    (ps : List (String × PolicyParameter)) (rev : PolicyParameter) (n : ℕ)
    (th : ℚ) (r : RNG) :
    (runSimulation o ps rev n th r).1.total_costs.length = n := by
  simp [runSimulation_total_costs]

theorem runSimulation_revenues_length (o : Oracles)
    (ps : List (String × PolicyParameter)) (rev : PolicyParameter) (n : ℕ)
    (th : ℚ) (r : RNG) :
    (runSimulation o ps rev n th r).1.revenues.length = n := by
  rw [runSimulation_revenues, sample_length]

theorem runSimulation_net_length (o : Oracles)
    (ps : List (String × PolicyParameter)) (rev : PolicyParameter) (n : ℕ)
    (th : ℚ) (r : RNG) :
    (runSimulation o ps rev n th r).1.net_budget_impact.length = n := by
  rw [runSimulation_net, List.length_zipWith, runSimulation_total_costs_length,
    runSimulation_revenues_length, Nat.min_self]

theorem ci_eq_none_of_length_le_one (o : Oracles) (xs : List ℚ)
    (h : xs.length ≤ 1) : ci o xs = none := by
  simp [ci, sem, var1, h, tInterval]

/-! ### Claim theorems -/

/-- C2: for every `PolicyParameter` with `mean ≥ 0` and `std_dev ≥ 0` and
every count `N ≥ 0`, `sample(N)` returns exactly `N` values and every
returned value is `≥ 0` (draws below zero are clamped to zero). -/
theorem c2_sample_count_and_nonneg (mt : ℕ → ℕ → ℚ) (p : PolicyParameter)
    (N : ℕ) (seed : Option ℕ) (r : RNG)
    (_hm : 0 ≤ p.mean) (_hs : 0 ≤ p.std_dev) :
    (PolicyParameter.sample mt p N seed r).1.length = N ∧
    ∀ x ∈ (PolicyParameter.sample mt p N seed r).1, 0 ≤ x :=
  ⟨sample_length mt p N seed r, sample_nonneg mt p N seed r⟩

/-- A concrete parameter for witnesses (the one from the unit tests). -/
def testParam : PolicyParameter :=
  ⟨"Test Policy", 5, 1, "Test description", "Test source"⟩

theorem c2_sample_count_and_nonneg_witness :
    (0 ≤ testParam.mean ∧ 0 ≤ testParam.std_dev) ∧
    ((PolicyParameter.sample testOracles.mt testParam 3
        (some 42) ⟨fun _ => 0, 0⟩).1.length = 3 ∧
     ∀ x ∈ (PolicyParameter.sample testOracles.mt testParam 3
        (some 42) ⟨fun _ => 0, 0⟩).1, 0 ≤ x) :=
  ⟨⟨by norm_num [testParam], by norm_num [testParam]⟩,
   c2_sample_count_and_nonneg testOracles.mt testParam 3
     (some 42) ⟨fun _ => 0, 0⟩ (by norm_num [testParam]) (by norm_num [testParam])⟩

/-- C4: two simulator constructions with identical configuration and the
same deterministic seed, each followed by `run_simulation`, produce
identical results (per-policy cost table, vectors and statistics),
whatever the state of the global generator was beforehand. -/
theorem c4_seeded_runs_bit_identical (o : Oracles)
    (ps : List (String × PolicyParameter)) (rev : PolicyParameter) (n : ℕ)
    (th : ℚ) (s : ℕ) (r r' : RNG) :
    (constructAndRun o ps rev n th (some s) r).1 =
    (constructAndRun o ps rev n th (some s) r').1 :=
  rfl

/-- C7: with trial count 1 the confidence-interval computation returns the
NaN pair (`none`, the float undefined marker) for all three metrics —
`scipy.stats.sem` hits `0/0` with `ddof = 1` and `t.interval` propagates
it — and the run completes normally instead of raising. -/
theorem c7_confidence_interval_single_trial (o : Oracles)
    (ps : List (String × PolicyParameter)) (rev : PolicyParameter)
    (th : ℚ) (r : RNG) :
    (runSimulation o ps rev 1 th r).1.statistics.confidence_intervals =
      ⟨none, none, none⟩ := by
  rw [runSimulation_stats]
  show ConfidenceIntervals.mk _ _ _ = _
  rw [ci_eq_none_of_length_le_one o _ (by
        rw [runSimulation_total_costs_length]),
      ci_eq_none_of_length_le_one o _ (by
        rw [runSimulation_revenues_length]),
      ci_eq_none_of_length_le_one o _ (by
        rw [runSimulation_net_length])]

/-- C9: every result of a run has column length (row count) equal to the
configured trial count in the per-policy table and in the total-cost,
revenue and net-impact vectors, and every cost and revenue value in them
is nonnegative. -/
theorem c9_result_shape_invariant (o : Oracles)
    (ps : List (String × PolicyParameter)) (rev : PolicyParameter) (n : ℕ)
    (th : ℚ) (r : RNG) :
    (∀ c ∈ (runSimulation o ps rev n th r).1.policy_costs,
        c.2.length = n ∧ ∀ x ∈ c.2, 0 ≤ x) ∧
    (runSimulation o ps rev n th r).1.total_costs.length = n ∧
    (runSimulation o ps rev n th r).1.revenues.length = n ∧
    (runSimulation o ps rev n th r).1.net_budget_impact.length = n ∧
    (∀ x ∈ (runSimulation o ps rev n th r).1.total_costs, 0 ≤ x) ∧
    (∀ x ∈ (runSimulation o ps rev n th r).1.revenues, 0 ≤ x) := by
  refine ⟨?_, runSimulation_total_costs_length o ps rev n th r,
    runSimulation_revenues_length o ps rev n th r,
    runSimulation_net_length o ps rev n th r, ?_, ?_⟩
  · rw [runSimulation_policy_costs]
    exact samplePolicies_cols o ps n r
  · intro x hx
    rw [runSimulation_total_costs] at hx
    simp only [List.mem_map] at hx
    obtain ⟨t, -, rfl⟩ := hx
    apply List.sum_nonneg
    intro y hy
    simp only [List.mem_map] at hy
    obtain ⟨c, hc, rfl⟩ := hy
    obtain ⟨-, hpos⟩ := samplePolicies_cols o ps n r c hc
    rcases Nat.lt_or_ge t c.2.length with hlt | hge
    · rw [List.getD_eq_getElem _ _ hlt]
      exact hpos _ (List.getElem_mem hlt)
    · rw [List.getD_eq_default _ _ hge]
  · intro x hx
    rw [runSimulation_revenues] at hx
    exact sample_nonneg o.mt rev n none _ x hx

theorem c9_result_shape_invariant_witness :
    (∀ c ∈ (runSimulation testOracles POLICY_PARAMETERS TAX_INCREASES 2 2
        ⟨fun _ => 0, 0⟩).1.policy_costs, c.2.length = 2 ∧ ∀ x ∈ c.2, 0 ≤ x) ∧
    (runSimulation testOracles POLICY_PARAMETERS TAX_INCREASES 2 2
        ⟨fun _ => 0, 0⟩).1.total_costs.length = 2 ∧
    (runSimulation testOracles POLICY_PARAMETERS TAX_INCREASES 2 2
        ⟨fun _ => 0, 0⟩).1.revenues.length = 2 ∧
    (runSimulation testOracles POLICY_PARAMETERS TAX_INCREASES 2 2
        ⟨fun _ => 0, 0⟩).1.net_budget_impact.length = 2 ∧
    (∀ x ∈ (runSimulation testOracles POLICY_PARAMETERS TAX_INCREASES 2 2
        ⟨fun _ => 0, 0⟩).1.total_costs, 0 ≤ x) ∧
    (∀ x ∈ (runSimulation testOracles POLICY_PARAMETERS TAX_INCREASES 2 2
        ⟨fun _ => 0, 0⟩).1.revenues, 0 ≤ x) :=
  c9_result_shape_invariant testOracles POLICY_PARAMETERS TAX_INCREASES 2 2
    ⟨fun _ => 0, 0⟩

/-- C1: in every simulation result, each entry of the total-cost vector is
the sum across the policy columns of the cost table at that trial, and
each entry of the net-impact vector is the total cost minus the revenue at
that trial, exactly. -/
theorem c1_row_sum_and_net_impact (o : Oracles)
    (ps : List (String × PolicyParameter)) (rev : PolicyParameter) (n : ℕ)
    (th : ℚ) (r : RNG) (t : ℕ) (ht : t < n) :
    (runSimulation o ps rev n th r).1.total_costs.getD t 0 =
      ((runSimulation o ps rev n th r).1.policy_costs.map
        (fun c => c.2.getD t 0)).sum ∧
    (runSimulation o ps rev n th r).1.net_budget_impact.getD t 0 =
      (runSimulation o ps rev n th r).1.total_costs.getD t 0 -
      (runSimulation o ps rev n th r).1.revenues.getD t 0 := by
  have hlt : t < (runSimulation o ps rev n th r).1.total_costs.length := by
    rw [runSimulation_total_costs_length]; exact ht
  have hlr : t < (runSimulation o ps rev n th r).1.revenues.length := by
    rw [runSimulation_revenues_length]; exact ht
  have hln : t < (runSimulation o ps rev n th r).1.net_budget_impact.length := by
    rw [runSimulation_net_length]; exact ht
  constructor
  · rw [runSimulation_policy_costs]
    conv_lhs => rw [runSimulation_total_costs]
    rw [List.getD_eq_getElem _ _ (by simpa using ht), List.getElem_map,
      List.getElem_range]
  · conv_lhs => rw [runSimulation_net]
    rw [List.getD_eq_getElem _ _ (by
        rw [runSimulation_net] at hln; exact hln),
      List.getElem_zipWith, List.getD_eq_getElem _ _ hlt,
      List.getD_eq_getElem _ _ hlr]

theorem c1_row_sum_and_net_impact_witness :
    0 < 2 ∧
    ((runSimulation testOracles POLICY_PARAMETERS TAX_INCREASES 2 2
        ⟨fun _ => 0, 0⟩).1.total_costs.getD 1 0 =
      ((runSimulation testOracles POLICY_PARAMETERS TAX_INCREASES 2 2
        ⟨fun _ => 0, 0⟩).1.policy_costs.map (fun c => c.2.getD 1 0)).sum ∧
    (runSimulation testOracles POLICY_PARAMETERS TAX_INCREASES 2 2
        ⟨fun _ => 0, 0⟩).1.net_budget_impact.getD 1 0 =
      (runSimulation testOracles POLICY_PARAMETERS TAX_INCREASES 2 2
        ⟨fun _ => 0, 0⟩).1.total_costs.getD 1 0 -
      (runSimulation testOracles POLICY_PARAMETERS TAX_INCREASES 2 2
        ⟨fun _ => 0, 0⟩).1.revenues.getD 1 0) :=
  ⟨by decide,
   c1_row_sum_and_net_impact testOracles POLICY_PARAMETERS TAX_INCREASES 2 2
     ⟨fun _ => 0, 0⟩ 1 (by decide)⟩

/-- C5: the exceedance count is the number of trials whose total cost is
strictly greater than the threshold, and the reported exceedance
probability is that count divided by the trial count, lying in `[0, 1]`. -/
theorem c5_threshold_exceedance (o : Oracles)
    (ps : List (String × PolicyParameter)) (rev : PolicyParameter) (n : ℕ)
    (th : ℚ) (r : RNG) (hn : 1 ≤ n) :
    (runSimulation o ps rev n th r).1.threshold_exceedances =
      ((List.range n).filter (fun t =>
        decide (th < (runSimulation o ps rev n th r).1.total_costs.getD t 0))).length ∧
    (runSimulation o ps rev n th r).1.statistics.exceedance_probability =
      ((runSimulation o ps rev n th r).1.threshold_exceedances : ℚ) / n ∧
    0 ≤ (runSimulation o ps rev n th r).1.statistics.exceedance_probability ∧
    (runSimulation o ps rev n th r).1.statistics.exceedance_probability ≤ 1 := by
  have hcount : (runSimulation o ps rev n th r).1.threshold_exceedances ≤ n := by
    rw [runSimulation_exceedances]
    calc (runSimulation o ps rev n th r).1.total_costs.countP
          (fun x => decide (th < x))
        ≤ (runSimulation o ps rev n th r).1.total_costs.length :=
          List.countP_le_length _
      _ = n := runSimulation_total_costs_length o ps rev n th r
  have hprob : (runSimulation o ps rev n th r).1.statistics.exceedance_probability =
      ((runSimulation o ps rev n th r).1.threshold_exceedances : ℚ) / n := rfl
  refine ⟨?_, hprob, ?_, ?_⟩
  · rw [runSimulation_exceedances]
    conv_lhs => rw [runSimulation_total_costs]
    rw [List.countP_map, List.countP_eq_length_filter]
    congr 1
    apply List.filter_congr
    intro t htmem
    have htn : t < n := by simpa using htmem
    simp only [Function.comp]
    congr 1
    rw [runSimulation_total_costs,
      List.getD_eq_getElem _ _ (by simpa using htn), List.getElem_map,
      List.getElem_range]
  · rw [hprob]
    positivity
  · rw [hprob]
    refine div_le_one_of_le₀ ?_ (by positivity)
    exact_mod_cast hcount

theorem c5_threshold_exceedance_witness :
    1 ≤ 2 ∧
    ((runSimulation testOracles POLICY_PARAMETERS TAX_INCREASES 2 2
        ⟨fun _ => 0, 0⟩).1.threshold_exceedances =
      ((List.range 2).filter (fun t =>
        decide (2 < (runSimulation testOracles POLICY_PARAMETERS TAX_INCREASES
          2 2 ⟨fun _ => 0, 0⟩).1.total_costs.getD t 0))).length ∧
    (runSimulation testOracles POLICY_PARAMETERS TAX_INCREASES 2 2
        ⟨fun _ => 0, 0⟩).1.statistics.exceedance_probability =
      ((runSimulation testOracles POLICY_PARAMETERS TAX_INCREASES 2 2
        ⟨fun _ => 0, 0⟩).1.threshold_exceedances : ℚ) / 2 ∧
    0 ≤ (runSimulation testOracles POLICY_PARAMETERS TAX_INCREASES 2 2
        ⟨fun _ => 0, 0⟩).1.statistics.exceedance_probability ∧
    (runSimulation testOracles POLICY_PARAMETERS TAX_INCREASES 2 2
        ⟨fun _ => 0, 0⟩).1.statistics.exceedance_probability ≤ 1) :=
  ⟨by decide,
   c5_threshold_exceedance testOracles POLICY_PARAMETERS TAX_INCREASES 2 2
     ⟨fun _ => 0, 0⟩ (by decide)⟩

theorem except_isOk_map (f : List String → List String)
    (x : Except String (List String)) : (x.map f).isOk = x.isOk := by
  cases x <;> rfl

theorem except_isOk_ok (ws : List String) :
    (Except.ok ws : Except String (List String)).isOk = true := rfl

theorem except_isOk_error (e : String) :
    (Except.error e : Except String (List String)).isOk = false := rfl

/-- C6: `validate_parameters` fails (raises `ValueError`) iff some
configured parameter has negative mean or negative std-dev, its error
message names the offending parameter, and on success the emitted warnings
are exactly the parameters with `std_dev > mean` (the run proceeds). -/
theorem c6_validate_iff_negative (ps : List (String × PolicyParameter)) :
    ((validate_parameters ps).isOk = true ↔
      ∀ kp ∈ ps, 0 ≤ kp.2.mean ∧ 0 ≤ kp.2.std_dev) ∧
    (∀ e, validate_parameters ps = .error e →
      ∃ kp ∈ ps, (kp.2.mean < 0 ∧ e = meanErrMsg kp.1 kp.2.mean) ∨
        (kp.2.std_dev < 0 ∧ e = stdErrMsg kp.1 kp.2.std_dev)) ∧
    (∀ ws, validate_parameters ps = .ok ws →
      ws = (ps.filter (fun kp => decide (kp.2.mean < kp.2.std_dev))).map
        (fun kp => kp.1)) := by
  induction ps with
  | nil =>
    refine ⟨by simp [validate_parameters, except_isOk_ok], ?_, ?_⟩
    · intro e he
      simp [validate_parameters] at he
    · intro ws hws
      simp only [validate_parameters, Except.ok.injEq] at hws
      simp [← hws]
  | cons hd tl ih =>
    obtain ⟨k, p⟩ := hd
    obtain ⟨ih1, ih2, ih3⟩ := ih
    by_cases h1 : p.mean < 0
    · have hv : validate_parameters ((k, p) :: tl) = .error (meanErrMsg k p.mean) := by
        simp [validate_parameters, h1]
      refine ⟨?_, ?_, ?_⟩
      · rw [hv]
        constructor
        · intro h
          simp [except_isOk_error] at h
        · intro hall
          exact absurd ((hall (k, p) (List.mem_cons_self _ _)).1) (not_le.mpr h1)
      · intro e he
        rw [hv] at he
        cases he
        exact ⟨(k, p), List.mem_cons_self _ _, Or.inl ⟨h1, rfl⟩⟩
      · intro ws hws
        rw [hv] at hws
        cases hws
    · by_cases h2 : p.std_dev < 0
      · have hv : validate_parameters ((k, p) :: tl) =
            .error (stdErrMsg k p.std_dev) := by
          simp [validate_parameters, h1, h2]
        refine ⟨?_, ?_, ?_⟩
        · rw [hv]
          constructor
          · intro h
            simp [except_isOk_error] at h
          · intro hall
            exact absurd ((hall (k, p) (List.mem_cons_self _ _)).2) (not_le.mpr h2)
        · intro e he
          rw [hv] at he
          cases he
          exact ⟨(k, p), List.mem_cons_self _ _, Or.inr ⟨h2, rfl⟩⟩
        · intro ws hws
          rw [hv] at hws
          cases hws
      · have hkm : 0 ≤ p.mean := not_lt.mp h1
        have hks : 0 ≤ p.std_dev := not_lt.mp h2
        by_cases h3 : p.std_dev > p.mean
        · have hv : validate_parameters ((k, p) :: tl) =
              (validate_parameters tl).map (k :: ·) := by
            simp [validate_parameters, h1, h2, h3]
          refine ⟨?_, ?_, ?_⟩
          · rw [hv, except_isOk_map]
            constructor
            · intro h kp hkp
              rcases List.mem_cons.mp hkp with rfl | hkp
              · exact ⟨hkm, hks⟩
              · exact ih1.mp h kp hkp
            · intro hall
              exact ih1.mpr (fun kp hkp => hall kp (List.mem_cons_of_mem _ hkp))
          · intro e he
            rw [hv] at he
            cases hvt : validate_parameters tl with
            | error e' =>
              rw [hvt] at he
              simp only [Except.map, Except.error.injEq] at he
              obtain ⟨kp, hkp, hor⟩ := ih2 e' hvt
              exact ⟨kp, List.mem_cons_of_mem _ hkp, he ▸ hor⟩
            | ok ws => rw [hvt] at he; simp [Except.map] at he
          · intro ws hws
            rw [hv] at hws
            cases hvt : validate_parameters tl with
            | error e => rw [hvt] at hws; simp [Except.map] at hws
            | ok ws' =>
              rw [hvt] at hws
              simp only [Except.map, Except.ok.injEq] at hws
              rw [← hws, ih3 ws' hvt, List.filter_cons]
              simp [show p.mean < p.std_dev from h3]
        · have hv : validate_parameters ((k, p) :: tl) = validate_parameters tl := by
            simp [validate_parameters, h1, h2, h3]
          refine ⟨?_, ?_, ?_⟩
          · rw [hv]
            constructor
            · intro h kp hkp
              rcases List.mem_cons.mp hkp with rfl | hkp
              · exact ⟨hkm, hks⟩
              · exact ih1.mp h kp hkp
            · intro hall
              exact ih1.mpr (fun kp hkp => hall kp (List.mem_cons_of_mem _ hkp))
          · intro e he
            rw [hv] at he
            obtain ⟨kp, hkp, hor⟩ := ih2 e he
            exact ⟨kp, List.mem_cons_of_mem _ hkp, hor⟩
          · intro ws hws
            rw [hv] at hws
            rw [ih3 ws hws, List.filter_cons]
            simp [show ¬(p.mean < p.std_dev) from h3]

theorem c6_validate_iff_negative_witness :
    ((validate_parameters [("bad_mean", ⟨"Bad", -1, 1, "", ""⟩),
        ("warn", ⟨"Warn", 1, 2, "", ""⟩)]).isOk = true ↔
      ∀ kp ∈ [(("bad_mean", ⟨"Bad", -1, 1, "", ""⟩) : String × PolicyParameter),
        ("warn", ⟨"Warn", 1, 2, "", ""⟩)], 0 ≤ kp.2.mean ∧ 0 ≤ kp.2.std_dev) ∧
    (∀ e, validate_parameters [("bad_mean", ⟨"Bad", -1, 1, "", ""⟩),
        ("warn", ⟨"Warn", 1, 2, "", ""⟩)] = .error e →
      ∃ kp ∈ [(("bad_mean", ⟨"Bad", -1, 1, "", ""⟩) : String × PolicyParameter),
        ("warn", ⟨"Warn", 1, 2, "", ""⟩)],
        (kp.2.mean < 0 ∧ e = meanErrMsg kp.1 kp.2.mean) ∨
        (kp.2.std_dev < 0 ∧ e = stdErrMsg kp.1 kp.2.std_dev)) ∧
    (∀ ws, validate_parameters [("bad_mean", ⟨"Bad", -1, 1, "", ""⟩),
        ("warn", ⟨"Warn", 1, 2, "", ""⟩)] = .ok ws →
      ws = ([(("bad_mean", ⟨"Bad", -1, 1, "", ""⟩) : String × PolicyParameter),
        ("warn", ⟨"Warn", 1, 2, "", ""⟩)].filter
          (fun kp => decide (kp.2.mean < kp.2.std_dev))).map (fun kp => kp.1)) :=
  c6_validate_iff_negative
    [("bad_mean", ⟨"Bad", -1, 1, "", ""⟩), ("warn", ⟨"Warn", 1, 2, "", ""⟩)]

/-- C10: the seed is applied exactly once, in the constructor
(`np.random.seed` overwrites whatever generator state existed);
`run_simulation` never reseeds: it leaves the generator advanced by the
`(#policies + 1) * n` draws it consumed, so the first run after
construction is a function of configuration and seed alone, while a second
`run_simulation` on the same instance starts from the advanced state and
in general produces a different cost table than the seed-determined first
run. -/
theorem c10_seed_applied_once_no_reseed (o : Oracles)
    (ps : List (String × PolicyParameter)) (rev : PolicyParameter) (n : ℕ)
    (th : ℚ) (s : ℕ) (r : RNG) :
    (initSimulator o n th (some s) r).2 = npSeed o.mt s ∧
    (constructAndRun o ps rev n th (some s) r).2.gauss = o.mt s ∧
    (constructAndRun o ps rev n th (some s) r).2.pos = (ps.length + 1) * n ∧
    (constructAndRun o ps rev n th (some s) r).1 =
      (constructAndRun o ps rev n th (some s) ⟨fun _ => 0, 0⟩).1 ∧
    ∃ o' : Oracles, ∃ ps' : List (String × PolicyParameter),
      ∃ rev' : PolicyParameter, ∃ th' : ℚ, ∃ s' : ℕ,
      (runSimulation o' ps' rev' 1 th'
          (constructAndRun o' ps' rev' 1 th' (some s') ⟨fun _ => 0, 0⟩).2).1.policy_costs ≠
        (constructAndRun o' ps' rev' 1 th' (some s') ⟨fun _ => 0, 0⟩).1.policy_costs := by
  refine ⟨rfl, ?_, ?_, rfl, ?_⟩
  · show (runSimulation o ps rev n th (npSeed o.mt s)).2.gauss = o.mt s
    rw [runSimulation_rng]
    rfl
  · show (runSimulation o ps rev n th (npSeed o.mt s)).2.pos = (ps.length + 1) * n
    rw [runSimulation_rng]
    simp [npSeed]
  · refine ⟨⟨fun _ i => (i : ℚ), fun q => q, fun _ => 2⟩,
      [("p", ⟨"p", 0, 1, "", ""⟩)], ⟨"rev", 0, 1, "", ""⟩, 0, 0, ?_⟩
    have hfirst :
        (constructAndRun ⟨fun _ i => (i : ℚ), fun q => q, fun _ => 2⟩
          [("p", ⟨"p", 0, 1, "", ""⟩)] ⟨"rev", 0, 1, "", ""⟩ 1 0 (some 0)
          ⟨fun _ => 0, 0⟩).1.policy_costs = [("p", [0])] := by
      norm_num [constructAndRun, initSimulator, npSeed, runSimulation_policy_costs,
        samplePolicies, PolicyParameter.sample, npNormal, List.range_succ,
        Function.comp, sup_eq_left]
    have hrng :
        (constructAndRun ⟨fun _ i => (i : ℚ), fun q => q, fun _ => 2⟩
          [("p", ⟨"p", 0, 1, "", ""⟩)] ⟨"rev", 0, 1, "", ""⟩ 1 0 (some 0)
          ⟨fun _ => 0, 0⟩).2 = ⟨fun i => (i : ℚ), 2⟩ := by
      show (runSimulation ⟨fun _ i => (i : ℚ), fun q => q, fun _ => 2⟩
          [("p", ⟨"p", 0, 1, "", ""⟩)] ⟨"rev", 0, 1, "", ""⟩ 1 0
          (npSeed (fun _ i => (i : ℚ)) 0)).2 = _
      rw [runSimulation_rng]
      rfl
    have hsecond :
        (runSimulation ⟨fun _ i => (i : ℚ), fun q => q, fun _ => 2⟩
          [("p", ⟨"p", 0, 1, "", ""⟩)] ⟨"rev", 0, 1, "", ""⟩ 1 0
          (⟨fun i => (i : ℚ), 2⟩ : RNG)).1.policy_costs = [("p", [2])] := by
      norm_num [runSimulation_policy_costs, samplePolicies, PolicyParameter.sample,
        npNormal, List.range_succ, Function.comp, sup_eq_left]
    rw [hrng, hfirst, hsecond]
    simp

theorem c10_seed_applied_once_no_reseed_witness :
    (initSimulator testOracles 2 2 (some 5) ⟨fun _ => 0, 0⟩).2 =
      npSeed testOracles.mt 5 ∧
    (constructAndRun testOracles POLICY_PARAMETERS TAX_INCREASES 2 2 (some 5)
        ⟨fun _ => 0, 0⟩).2.gauss = testOracles.mt 5 ∧
    (constructAndRun testOracles POLICY_PARAMETERS TAX_INCREASES 2 2 (some 5)
        ⟨fun _ => 0, 0⟩).2.pos = (POLICY_PARAMETERS.length + 1) * 2 ∧
    (constructAndRun testOracles POLICY_PARAMETERS TAX_INCREASES 2 2 (some 5)
        ⟨fun _ => 0, 0⟩).1 =
      (constructAndRun testOracles POLICY_PARAMETERS TAX_INCREASES 2 2 (some 5)
        ⟨fun _ => 0, 0⟩).1 ∧
    ∃ o' : Oracles, ∃ ps' : List (String × PolicyParameter),
      ∃ rev' : PolicyParameter, ∃ th' : ℚ, ∃ s' : ℕ,
      (runSimulation o' ps' rev' 1 th'
          (constructAndRun o' ps' rev' 1 th' (some s') ⟨fun _ => 0, 0⟩).2).1.policy_costs ≠
        (constructAndRun o' ps' rev' 1 th' (some s') ⟨fun _ => 0, 0⟩).1.policy_costs :=
  c10_seed_applied_once_no_reseed testOracles POLICY_PARAMETERS TAX_INCREASES
    2 2 5 ⟨fun _ => 0, 0⟩

/-! ### The zero-variance scenario (all std-devs zero) -/

theorem sample_zero_std (mt : ℕ → ℕ → ℚ) (p : PolicyParameter) (n : ℕ)
    (seed : Option ℕ) (r : RNG) (h0 : p.std_dev = 0) (hm : 0 ≤ p.mean) :
    (PolicyParameter.sample mt p n seed r).1 = List.replicate n p.mean := by
  refine List.eq_replicate_iff.mpr ⟨sample_length mt p n seed r, ?_⟩
  intro b hb
  simp only [PolicyParameter.sample, npNormal, List.mem_map, List.mem_range,
    h0] at hb
  obtain ⟨x, ⟨i, -, rfl⟩, rfl⟩ := hb
  simp [max_eq_left hm]

theorem samplePolicies_length (o : Oracles)
    (ps : List (String × PolicyParameter)) (n : ℕ) :
    ∀ r, (samplePolicies o ps n r).1.length = ps.length := by
  induction ps with
  | nil => intro r; simp [samplePolicies]
  | cons hd tl ih =>
    intro r
    obtain ⟨k, p⟩ := hd
    simp only [samplePolicies, List.length_cons, ih]

theorem samplePolicies_zero_std (o : Oracles)
    (ps : List (String × PolicyParameter)) (n : ℕ) :
    ∀ r, (∀ kp ∈ ps, kp.2.std_dev = 0 ∧ 0 ≤ kp.2.mean) →
      (samplePolicies o ps n r).1 =
        ps.map (fun kp => (kp.1, List.replicate n kp.2.mean)) := by
  induction ps with
  | nil => intro r _; simp [samplePolicies]
  | cons hd tl ih =>
    intro r hstd
    obtain ⟨k, p⟩ := hd
    obtain ⟨h0, hm⟩ := hstd (k, p) (List.mem_cons_self _ _)
    simp only [samplePolicies, List.map_cons]
    rw [sample_zero_std o.mt p n none r h0 hm,
      ih _ (fun kp hkp => hstd kp (List.mem_cons_of_mem _ hkp))]

theorem meanQ_replicate (c : ℚ) {n : ℕ} (hn : n ≠ 0) :
    meanQ (List.replicate n c) = c := by
  simp only [meanQ, List.sum_replicate, List.length_replicate, nsmul_eq_mul]
  exact mul_div_cancel_left₀ c (Nat.cast_ne_zero.mpr hn)

theorem varQ_replicate (n : ℕ) (c : ℚ) : varQ (List.replicate n c) = 0 := by
  rcases Nat.eq_zero_or_pos n with rfl | hn
  · simp [varQ]
  · simp [varQ, meanQ_replicate c hn.ne', List.map_replicate,
      List.sum_replicate]

theorem run_total_costs_zero_std (o : Oracles)
    (ps : List (String × PolicyParameter)) (rev : PolicyParameter) (n : ℕ)
    (th : ℚ) (r : RNG)
    (hstd : ∀ kp ∈ ps, kp.2.std_dev = 0 ∧ 0 ≤ kp.2.mean) :
    (runSimulation o ps rev n th r).1.total_costs =
      List.replicate n ((ps.map (fun kp => kp.2.mean)).sum) := by
  rw [runSimulation_total_costs, samplePolicies_zero_std o ps n r hstd]
  refine List.eq_replicate_iff.mpr ⟨by simp, ?_⟩
  intro b hb
  simp only [List.mem_map, List.mem_range] at hb
  obtain ⟨t, ht, rfl⟩ := hb
  rw [List.map_map]
  have hpt : ∀ kp ∈ ps,
      ((fun c : String × List ℚ => c.2.getD t 0) ∘
        (fun kp : String × PolicyParameter =>
          (kp.1, List.replicate n kp.2.mean))) kp = kp.2.mean := by
    intro kp _
    simp only [Function.comp]
    rw [List.getD_eq_getElem _ _ (by simpa using ht), List.getElem_replicate]
  rw [List.map_congr_left hpt]

/-- C3 (behaviour the code actually has): when every policy std-dev is
zero, the total-cost vector is constant, its variance is zero, and
`run_sensitivity_analysis` still returns one entry per policy whose
contribution and percentage are the NaN of the silent `0/0` division
(`none`) — it neither reports zero contributions nor signals an
undefined-decomposition condition. -/
theorem c3_zero_variance_silent_nan (o : Oracles)
    (ps : List (String × PolicyParameter)) (rev : PolicyParameter) (n : ℕ)
    (th : ℚ) (r : RNG)
    (hstd : ∀ kp ∈ ps, kp.2.std_dev = 0 ∧ 0 ≤ kp.2.mean) :
    varQ (runSimulation o ps rev n th r).1.total_costs = 0 ∧
    (run_sensitivity_analysis (runSimulation o ps rev n th r).1).length =
      ps.length ∧
    ∀ item ∈ run_sensitivity_analysis (runSimulation o ps rev n th r).1,
      item.contribution_to_total = none ∧ item.percentage = none := by
  have hvar : varQ (runSimulation o ps rev n th r).1.total_costs = 0 := by
    rw [run_total_costs_zero_std o ps rev n th r hstd]
    exact varQ_replicate _ _
  refine ⟨hvar, ?_, ?_⟩
  · simp only [run_sensitivity_analysis]
    rw [(List.perm_insertionSort _ _).length_eq, List.length_map,
      runSimulation_policy_costs]
    exact samplePolicies_length o ps n r
  · intro item hitem
    simp only [run_sensitivity_analysis] at hitem
    have hmem := (List.perm_insertionSort _ _).mem_iff.mp hitem
    simp only [List.mem_map] at hmem
    obtain ⟨c, -, rfl⟩ := hmem
    constructor <;> simp [fdiv, hvar]

/-- The spec's zero-variance scenario: the configured policy table with
every std-dev set to zero. -/
def ZERO_STD_POLICY_PARAMETERS : List (String × PolicyParameter) :=
  POLICY_PARAMETERS.map (fun kp => (kp.1, { kp.2 with std_dev := 0 }))

theorem c3_zero_variance_silent_nan_witness :
    (∀ kp ∈ ZERO_STD_POLICY_PARAMETERS, kp.2.std_dev = 0 ∧ 0 ≤ kp.2.mean) ∧
    (varQ (runSimulation testOracles ZERO_STD_POLICY_PARAMETERS TAX_INCREASES
        2 2 ⟨fun _ => 0, 0⟩).1.total_costs = 0 ∧
     (run_sensitivity_analysis (runSimulation testOracles
        ZERO_STD_POLICY_PARAMETERS TAX_INCREASES 2 2
        ⟨fun _ => 0, 0⟩).1).length = ZERO_STD_POLICY_PARAMETERS.length ∧
     ∀ item ∈ run_sensitivity_analysis (runSimulation testOracles
        ZERO_STD_POLICY_PARAMETERS TAX_INCREASES 2 2 ⟨fun _ => 0, 0⟩).1,
       item.contribution_to_total = none ∧ item.percentage = none) := by
  have h : ∀ kp ∈ ZERO_STD_POLICY_PARAMETERS,
      kp.2.std_dev = 0 ∧ 0 ≤ kp.2.mean := by
    intro kp hkp
    simp only [ZERO_STD_POLICY_PARAMETERS, POLICY_PARAMETERS, List.map_cons,
      List.map_nil, List.mem_cons, List.not_mem_nil, or_false] at hkp
    rcases hkp with rfl | rfl | rfl | rfl <;> norm_num
  exact ⟨h, c3_zero_variance_silent_nan testOracles ZERO_STD_POLICY_PARAMETERS
    TAX_INCREASES 2 2 ⟨fun _ => 0, 0⟩ h⟩

/-! ### Monotonicity of the linear-interpolation percentile -/

theorem nthClamped_mono {s : List ℚ} (hs : s.Sorted (· ≤ ·)) {i j : ℕ}
    (hij : i ≤ j) : nthClamped s i ≤ nthClamped s j := by
  rcases s with _ | ⟨a, t⟩
  · simp [nthClamped]
  · have hlen : 0 < (a :: t).length := by simp
    have hi : min i ((a :: t).length - 1) < (a :: t).length :=
      lt_of_le_of_lt (min_le_right _ _) (Nat.sub_lt hlen Nat.one_pos)
    have hj : min j ((a :: t).length - 1) < (a :: t).length :=
      lt_of_le_of_lt (min_le_right _ _) (Nat.sub_lt hlen Nat.one_pos)
    rw [nthClamped, nthClamped, List.getD_eq_getElem _ _ hi,
      List.getD_eq_getElem _ _ hj]
    haveI : IsRefl ℚ (· ≤ ·) := ⟨le_refl⟩
    have hmono := hs.rel_get_of_le
      (a := ⟨min i ((a :: t).length - 1), hi⟩)
      (b := ⟨min j ((a :: t).length - 1), hj⟩)
      (by simp only [Fin.mk_le_mk]; exact min_le_min hij (le_refl _))
    simpa [List.get_eq_getElem] using hmono

theorem interp_ge_floor {s : List ℚ} (hs : s.Sorted (· ≤ ·)) {p : ℚ}
    (hp : 0 ≤ p) : nthClamped s ⌊p⌋₊ ≤ interp s p := by
  have hfrac : 0 ≤ p - (⌊p⌋₊ : ℚ) := sub_nonneg.mpr (Nat.floor_le hp)
  have hd : 0 ≤ nthClamped s (⌊p⌋₊ + 1) - nthClamped s ⌊p⌋₊ :=
    sub_nonneg.mpr (nthClamped_mono hs (Nat.le_succ _))
  have hmul := mul_nonneg hfrac hd
  simp only [interp]
  linarith

theorem interp_le_ceil {s : List ℚ} (hs : s.Sorted (· ≤ ·)) {p : ℚ}
    (hp : 0 ≤ p) : interp s p ≤ nthClamped s (⌊p⌋₊ + 1) := by
  have hceil : p < (⌊p⌋₊ : ℚ) + 1 := Nat.lt_floor_add_one p
  have hfrac : 0 ≤ p - (⌊p⌋₊ : ℚ) := sub_nonneg.mpr (Nat.floor_le hp)
  have hd : 0 ≤ nthClamped s (⌊p⌋₊ + 1) - nthClamped s ⌊p⌋₊ :=
    sub_nonneg.mpr (nthClamped_mono hs (Nat.le_succ _))
  have hmul := mul_nonneg (show (0:ℚ) ≤ 1 - (p - (⌊p⌋₊ : ℚ)) by linarith) hd
  simp only [interp]
  nlinarith

theorem interp_mono {s : List ℚ} (hs : s.Sorted (· ≤ ·)) {p₁ p₂ : ℚ}
    (h0 : 0 ≤ p₁) (h12 : p₁ ≤ p₂) : interp s p₁ ≤ interp s p₂ := by
  have h0' : 0 ≤ p₂ := le_trans h0 h12
  have hfl : ⌊p₁⌋₊ ≤ ⌊p₂⌋₊ := Nat.floor_mono h12
  rcases eq_or_lt_of_le hfl with heq | hlt
  · have hd : 0 ≤ nthClamped s (⌊p₁⌋₊ + 1) - nthClamped s ⌊p₁⌋₊ :=
      sub_nonneg.mpr (nthClamped_mono hs (Nat.le_succ _))
    have hmul := mul_le_mul_of_nonneg_right
      (show p₁ - (⌊p₁⌋₊ : ℚ) ≤ p₂ - (⌊p₁⌋₊ : ℚ) by linarith) hd
    simp only [interp, ← heq]
    linarith
  · have h1 : interp s p₁ ≤ nthClamped s (⌊p₁⌋₊ + 1) := interp_le_ceil hs h0
    have h2 : nthClamped s (⌊p₁⌋₊ + 1) ≤ nthClamped s ⌊p₂⌋₊ :=
      nthClamped_mono hs hlt
    have h3 : nthClamped s ⌊p₂⌋₊ ≤ interp s p₂ := interp_ge_floor hs h0'
    linarith

theorem percentile_mono {xs : List ℚ} (hlen : 1 ≤ xs.length) {q₁ q₂ : ℚ}
    (hq0 : 0 ≤ q₁) (hq : q₁ ≤ q₂) :
    percentile xs q₁ ≤ percentile xs q₂ := by
  have hsort : (xs.insertionSort (· ≤ ·)).Sorted (· ≤ ·) :=
    List.sorted_insertionSort _ _
  have hn : (1 : ℚ) ≤ (xs.length : ℚ) := by exact_mod_cast hlen
  have h1 : (0 : ℚ) ≤ (xs.length : ℚ) - 1 := by linarith
  unfold percentile
  apply interp_mono hsort
  · exact div_nonneg (mul_nonneg hq0 h1) (by norm_num)
  · exact (div_le_div_iff_of_pos_right (by norm_num)).mpr
      (mul_le_mul_of_nonneg_right hq h1)

/-- C8: the stored total-cost percentiles are exactly the 5/25/50/75/95
linear-interpolation percentiles of the total-cost vector, and those
values are monotonically non-decreasing in the percentile rank. -/
theorem c8_percentiles_monotone (o : Oracles)
    (ps : List (String × PolicyParameter)) (rev : PolicyParameter) (n : ℕ)
    (th : ℚ) (r : RNG) (hn : 1 ≤ n) :
    (runSimulation o ps rev n th r).1.statistics.total_costs_percentiles =
      [(5, percentile (runSimulation o ps rev n th r).1.total_costs 5),
       (25, percentile (runSimulation o ps rev n th r).1.total_costs 25),
       (50, percentile (runSimulation o ps rev n th r).1.total_costs 50),
       (75, percentile (runSimulation o ps rev n th r).1.total_costs 75),
       (95, percentile (runSimulation o ps rev n th r).1.total_costs 95)] ∧
    percentile (runSimulation o ps rev n th r).1.total_costs 5 ≤
      percentile (runSimulation o ps rev n th r).1.total_costs 25 ∧
    percentile (runSimulation o ps rev n th r).1.total_costs 25 ≤
      percentile (runSimulation o ps rev n th r).1.total_costs 50 ∧
    percentile (runSimulation o ps rev n th r).1.total_costs 50 ≤
      percentile (runSimulation o ps rev n th r).1.total_costs 75 ∧
    percentile (runSimulation o ps rev n th r).1.total_costs 75 ≤
      percentile (runSimulation o ps rev n th r).1.total_costs 95 := by
  have hlen : 1 ≤ (runSimulation o ps rev n th r).1.total_costs.length := by
    rw [runSimulation_total_costs_length]
    exact hn
  exact ⟨rfl, percentile_mono hlen (by norm_num) (by norm_num),
    percentile_mono hlen (by norm_num) (by norm_num),
    percentile_mono hlen (by norm_num) (by norm_num),
    percentile_mono hlen (by norm_num) (by norm_num)⟩

theorem c8_percentiles_monotone_witness :
    1 ≤ 2 ∧
    ((runSimulation testOracles POLICY_PARAMETERS TAX_INCREASES 2 2
        ⟨fun _ => 0, 0⟩).1.statistics.total_costs_percentiles =
      [(5, percentile (runSimulation testOracles POLICY_PARAMETERS
          TAX_INCREASES 2 2 ⟨fun _ => 0, 0⟩).1.total_costs 5),
       (25, percentile (runSimulation testOracles POLICY_PARAMETERS
          TAX_INCREASES 2 2 ⟨fun _ => 0, 0⟩).1.total_costs 25),
       (50, percentile (runSimulation testOracles POLICY_PARAMETERS
          TAX_INCREASES 2 2 ⟨fun _ => 0, 0⟩).1.total_costs 50),
       (75, percentile (runSimulation testOracles POLICY_PARAMETERS
          TAX_INCREASES 2 2 ⟨fun _ => 0, 0⟩).1.total_costs 75),
       (95, percentile (runSimulation testOracles POLICY_PARAMETERS
          TAX_INCREASES 2 2 ⟨fun _ => 0, 0⟩).1.total_costs 95)] ∧
    percentile (runSimulation testOracles POLICY_PARAMETERS TAX_INCREASES 2 2
        ⟨fun _ => 0, 0⟩).1.total_costs 5 ≤
      percentile (runSimulation testOracles POLICY_PARAMETERS TAX_INCREASES 2 2
        ⟨fun _ => 0, 0⟩).1.total_costs 25 ∧
    percentile (runSimulation testOracles POLICY_PARAMETERS TAX_INCREASES 2 2
        ⟨fun _ => 0, 0⟩).1.total_costs 25 ≤
      percentile (runSimulation testOracles POLICY_PARAMETERS TAX_INCREASES 2 2
        ⟨fun _ => 0, 0⟩).1.total_costs 50 ∧
    percentile (runSimulation testOracles POLICY_PARAMETERS TAX_INCREASES 2 2
        ⟨fun _ => 0, 0⟩).1.total_costs 50 ≤
      percentile (runSimulation testOracles POLICY_PARAMETERS TAX_INCREASES 2 2
        ⟨fun _ => 0, 0⟩).1.total_costs 75 ∧
    percentile (runSimulation testOracles POLICY_PARAMETERS TAX_INCREASES 2 2
        ⟨fun _ => 0, 0⟩).1.total_costs 75 ≤
      percentile (runSimulation testOracles POLICY_PARAMETERS TAX_INCREASES 2 2
        ⟨fun _ => 0, 0⟩).1.total_costs 95) :=
  ⟨by decide,
   c8_percentiles_monotone testOracles POLICY_PARAMETERS TAX_INCREASES 2 2
     ⟨fun _ => 0, 0⟩ (by decide)⟩

end PolicyMC
